import Mathlib

/-
Verification of `cbits/stubs.h`, a C header of function prototypes for CUDA
bindings.  The header is embedded shallowly: each C type that occurs in a
declaration is a constructor of `CType`, each function prototype is a `FunDecl`
(name, calling-convention annotation, return type, parameter list in order),
and the file body is a list of `Block`s, one per `#if CUDA_VERSION >= N`
region (plus the unconditional region), each holding its `#undef` directives
and declarations in source order.  Commented-out lines of the header are not
part of the embedding, exactly as they are not part of the preprocessed file.
-/

namespace CudaStubs

/-- C types occurring in the header's declarations.  `dim3`,
`CUDA_MEMCPY2D` and `CUDA_ARRAY_DESCRIPTOR` are the vendor aggregate
(struct) types that the simplified wrappers avoid; they are listed so that
"takes no descriptor struct" is expressible, and indeed occur in no
declaration of the file. -/
inductive CType where
  | void
  | int
  | uint
  | uchar
  | ushort
  | char
  | size_t
  | cudaError_t
  | CUresult
  | cudaStream_t
  | CUstream
  | CUdevice
  | CUdeviceptr
  | CUcontext
  | CUmodule
  | CUtexref
  | CUarray_format
  | CUevent
  | CUjit_option
  | CUlinkState
  | CUjitInputType
  | dim3
  | CUDA_MEMCPY2D
  | CUDA_ARRAY_DESCRIPTOR
  | ptr (t : CType)
  | const (t : CType)
  deriving DecidableEq, Repr

/-- Calling-convention annotation on a declaration: either none (the
simplified wrappers, lines 22-98) or the SDK's `CUDAAPI` (lines 149-216). -/
inductive CallConv where
  | unannotated
  | CUDAAPI
  deriving DecidableEq, Repr

/-- A C function prototype: symbol name, calling-convention annotation,
return type, and parameters in declaration order as (type, name) pairs. -/
structure FunDecl where
  name : String
  conv : CallConv
  ret : CType
  params : List (CType × String)
  deriving DecidableEq, Repr

/-- A top-level element of the header body: a `#undef` directive, a function
prototype, a function definition with a body, or an object/state definition.
The last two constructors occur in no block of this header (claim C7). -/
inductive Element where
  | undefine (name : String)
  | decl (d : FunDecl)
  | defn (d : FunDecl)
  | objDef (name : String)
  deriving DecidableEq, Repr

/-- A region of the header body: `minVersion = some t` models a
`#if CUDA_VERSION >= t` ... `#endif` wrapper, `none` an unconditional
region.  `elems` are the directives and declarations inside, in order. -/
structure Block where
  minVersion : Option Nat
  elems : List Element
  deriving DecidableEq, Repr

/-- The whole header: include guard macro, `#include`d headers, whether the
body is wrapped in `extern "C"` when compiled as C++, and the body blocks. -/
structure HeaderFile where
  includeGuard : Option String
  includes : List String
  externC : Bool
  body : List Block

/- Simplified wrapper prototypes, stubs.h lines 22-98. -/

/-- stubs.h lines 22-29. -/
def cudaConfigureCallSimpleDecl : FunDecl :=
  { name := "cudaConfigureCallSimple", conv := CallConv.unannotated,
    ret := CType.cudaError_t,
    params := [(CType.int, "gridX"), (CType.int, "gridY"),
               (CType.int, "blockX"), (CType.int, "blockY"), (CType.int, "blockZ"),
               (CType.size_t, "sharedMem"),
               (CType.cudaStream_t, "stream")] }

/-- stubs.h lines 31-41. -/
def cuTexRefSetAddress2DSimpleDecl : FunDecl :=
  { name := "cuTexRefSetAddress2DSimple", conv := CallConv.unannotated,
    ret := CType.CUresult,
    params := [(CType.CUtexref, "tex"), (CType.CUarray_format, "format"),
               (CType.uint, "numChannels"), (CType.CUdeviceptr, "dptr"),
               (CType.size_t, "width"), (CType.size_t, "height"),
               (CType.size_t, "pitch")] }

/-- stubs.h lines 43-50. -/
def cuMemcpy2DHtoDDecl : FunDecl :=
  { name := "cuMemcpy2DHtoD", conv := CallConv.unannotated,
    ret := CType.CUresult,
    params := [(CType.CUdeviceptr, "dstDevice"), (CType.uint, "dstPitch"),
               (CType.uint, "dstXInBytes"), (CType.uint, "dstY"),
               (CType.ptr CType.void, "srcHost"), (CType.uint, "srcPitch"),
               (CType.uint, "srcXInBytes"), (CType.uint, "srcY"),
               (CType.uint, "widthInBytes"), (CType.uint, "height")] }

/-- stubs.h lines 52-60. -/
def cuMemcpy2DHtoDAsyncDecl : FunDecl :=
  { name := "cuMemcpy2DHtoDAsync", conv := CallConv.unannotated,
    ret := CType.CUresult,
    params := [(CType.CUdeviceptr, "dstDevice"), (CType.uint, "dstPitch"),
               (CType.uint, "dstXInBytes"), (CType.uint, "dstY"),
               (CType.ptr CType.void, "srcHost"), (CType.uint, "srcPitch"),
               (CType.uint, "srcXInBytes"), (CType.uint, "srcY"),
               (CType.uint, "widthInBytes"), (CType.uint, "height"),
               (CType.CUstream, "hStream")] }

/-- stubs.h lines 62-69. -/
def cuMemcpy2DDtoHDecl : FunDecl :=
  { name := "cuMemcpy2DDtoH", conv := CallConv.unannotated,
    ret := CType.CUresult,
    params := [(CType.ptr CType.void, "dstHost"), (CType.uint, "dstPitch"),
               (CType.uint, "dstXInBytes"), (CType.uint, "dstY"),
               (CType.CUdeviceptr, "srcDevice"), (CType.uint, "srcPitch"),
               (CType.uint, "srcXInBytes"), (CType.uint, "srcY"),
               (CType.uint, "widthInBytes"), (CType.uint, "height")] }

/-- stubs.h lines 71-79. -/
def cuMemcpy2DDtoHAsyncDecl : FunDecl :=
  { name := "cuMemcpy2DDtoHAsync", conv := CallConv.unannotated,
    ret := CType.CUresult,
    params := [(CType.ptr CType.void, "dstHost"), (CType.uint, "dstPitch"),
               (CType.uint, "dstXInBytes"), (CType.uint, "dstY"),
               (CType.CUdeviceptr, "srcDevice"), (CType.uint, "srcPitch"),
               (CType.uint, "srcXInBytes"), (CType.uint, "srcY"),
               (CType.uint, "widthInBytes"), (CType.uint, "height"),
               (CType.CUstream, "hStream")] }

/-- stubs.h lines 81-88. -/
def cuMemcpy2DDtoDDecl : FunDecl :=
  { name := "cuMemcpy2DDtoD", conv := CallConv.unannotated,
    ret := CType.CUresult,
    params := [(CType.CUdeviceptr, "dstDevice"), (CType.uint, "dstPitch"),
               (CType.uint, "dstXInBytes"), (CType.uint, "dstY"),
               (CType.CUdeviceptr, "srcDevice"), (CType.uint, "srcPitch"),
               (CType.uint, "srcXInBytes"), (CType.uint, "srcY"),
               (CType.uint, "widthInBytes"), (CType.uint, "height")] }

/-- stubs.h lines 90-98. -/
def cuMemcpy2DDtoDAsyncDecl : FunDecl :=
  { name := "cuMemcpy2DDtoDAsync", conv := CallConv.unannotated,
    ret := CType.CUresult,
    params := [(CType.CUdeviceptr, "dstDevice"), (CType.uint, "dstPitch"),
               (CType.uint, "dstXInBytes"), (CType.uint, "dstY"),
               (CType.CUdeviceptr, "srcDevice"), (CType.uint, "srcPitch"),
               (CType.uint, "srcXInBytes"), (CType.uint, "srcY"),
               (CType.uint, "widthInBytes"), (CType.uint, "height"),
               (CType.CUstream, "hStream")] }

/- Re-exported driver-API prototypes of the `CUDA_VERSION >= 3020` block,
stubs.h lines 149-190 (the uncommented lines only). -/

/-- stubs.h line 149. -/
def cuDeviceTotalMemDecl : FunDecl :=
  { name := "cuDeviceTotalMem", conv := CallConv.CUDAAPI, ret := CType.CUresult,
    params := [(CType.ptr CType.size_t, "bytes"), (CType.CUdevice, "dev")] }

/-- stubs.h line 150. -/
def cuCtxCreateDecl : FunDecl :=
  { name := "cuCtxCreate", conv := CallConv.CUDAAPI, ret := CType.CUresult,
    params := [(CType.ptr CType.CUcontext, "pctx"), (CType.uint, "flags"),
               (CType.CUdevice, "dev")] }

/-- stubs.h line 151. -/
def cuModuleGetGlobalDecl : FunDecl :=
  { name := "cuModuleGetGlobal", conv := CallConv.CUDAAPI, ret := CType.CUresult,
    params := [(CType.ptr CType.CUdeviceptr, "dptr"), (CType.ptr CType.size_t, "bytes"),
               (CType.CUmodule, "hmod"), (CType.ptr (CType.const CType.char), "name")] }

/-- stubs.h line 152. -/
def cuMemGetInfoDecl : FunDecl :=
  { name := "cuMemGetInfo", conv := CallConv.CUDAAPI, ret := CType.CUresult,
    params := [(CType.ptr CType.size_t, "free"), (CType.ptr CType.size_t, "total")] }

/-- stubs.h line 153. -/
def cuMemAllocDecl : FunDecl :=
  { name := "cuMemAlloc", conv := CallConv.CUDAAPI, ret := CType.CUresult,
    params := [(CType.ptr CType.CUdeviceptr, "dptr"), (CType.size_t, "bytesize")] }

/-- stubs.h line 155. -/
def cuMemFreeDecl : FunDecl :=
  { name := "cuMemFree", conv := CallConv.CUDAAPI, ret := CType.CUresult,
    params := [(CType.CUdeviceptr, "dptr")] }

/-- stubs.h line 156. -/
def cuMemGetAddressRangeDecl : FunDecl :=
  { name := "cuMemGetAddressRange", conv := CallConv.CUDAAPI, ret := CType.CUresult,
    params := [(CType.ptr CType.CUdeviceptr, "pbase"), (CType.ptr CType.size_t, "psize"),
               (CType.CUdeviceptr, "dptr")] }

/-- stubs.h line 158. -/
def cuMemHostGetDevicePointerDecl : FunDecl :=
  { name := "cuMemHostGetDevicePointer", conv := CallConv.CUDAAPI, ret := CType.CUresult,
    params := [(CType.ptr CType.CUdeviceptr, "pdptr"), (CType.ptr CType.void, "p"),
               (CType.uint, "Flags")] }

/-- stubs.h line 159. -/
def cuMemcpyHtoDDecl : FunDecl :=
  { name := "cuMemcpyHtoD", conv := CallConv.CUDAAPI, ret := CType.CUresult,
    params := [(CType.CUdeviceptr, "dstDevice"),
               (CType.ptr (CType.const CType.void), "srcHost"),
               (CType.size_t, "ByteCount")] }

/-- stubs.h line 160. -/
def cuMemcpyDtoHDecl : FunDecl :=
  { name := "cuMemcpyDtoH", conv := CallConv.CUDAAPI, ret := CType.CUresult,
    params := [(CType.ptr CType.void, "dstHost"), (CType.CUdeviceptr, "srcDevice"),
               (CType.size_t, "ByteCount")] }

/-- stubs.h line 161. -/
def cuMemcpyDtoDDecl : FunDecl :=
  { name := "cuMemcpyDtoD", conv := CallConv.CUDAAPI, ret := CType.CUresult,
    params := [(CType.CUdeviceptr, "dstDevice"), (CType.CUdeviceptr, "srcDevice"),
               (CType.size_t, "ByteCount")] }

/-- stubs.h line 172. -/
def cuMemcpyHtoDAsyncDecl : FunDecl :=
  { name := "cuMemcpyHtoDAsync", conv := CallConv.CUDAAPI, ret := CType.CUresult,
    params := [(CType.CUdeviceptr, "dstDevice"),
               (CType.ptr (CType.const CType.void), "srcHost"),
               (CType.size_t, "ByteCount"), (CType.CUstream, "hStream")] }

/-- stubs.h line 173. -/
def cuMemcpyDtoHAsyncDecl : FunDecl :=
  { name := "cuMemcpyDtoHAsync", conv := CallConv.CUDAAPI, ret := CType.CUresult,
    params := [(CType.ptr CType.void, "dstHost"), (CType.CUdeviceptr, "srcDevice"),
               (CType.size_t, "ByteCount"), (CType.CUstream, "hStream")] }

/-- stubs.h line 174. -/
def cuMemcpyDtoDAsyncDecl : FunDecl :=
  { name := "cuMemcpyDtoDAsync", conv := CallConv.CUDAAPI, ret := CType.CUresult,
    params := [(CType.CUdeviceptr, "dstDevice"), (CType.CUdeviceptr, "srcDevice"),
               (CType.size_t, "ByteCount"), (CType.CUstream, "hStream")] }

/-- stubs.h line 177. -/
def cuMemsetD8Decl : FunDecl :=
  { name := "cuMemsetD8", conv := CallConv.CUDAAPI, ret := CType.CUresult,
    params := [(CType.CUdeviceptr, "dstDevice"), (CType.uchar, "uc"),
               (CType.size_t, "N")] }

/-- stubs.h line 178. -/
def cuMemsetD16Decl : FunDecl :=
  { name := "cuMemsetD16", conv := CallConv.CUDAAPI, ret := CType.CUresult,
    params := [(CType.CUdeviceptr, "dstDevice"), (CType.ushort, "us"),
               (CType.size_t, "N")] }

/-- stubs.h line 179. -/
def cuMemsetD32Decl : FunDecl :=
  { name := "cuMemsetD32", conv := CallConv.CUDAAPI, ret := CType.CUresult,
    params := [(CType.CUdeviceptr, "dstDevice"), (CType.uint, "ui"),
               (CType.size_t, "N")] }

/-- stubs.h line 187. -/
def cuTexRefSetAddressDecl : FunDecl :=
  { name := "cuTexRefSetAddress", conv := CallConv.CUDAAPI, ret := CType.CUresult,
    params := [(CType.ptr CType.size_t, "ByteOffset"), (CType.CUtexref, "hTexRef"),
               (CType.CUdeviceptr, "dptr"), (CType.size_t, "bytes")] }

/- Re-exported prototypes of the `CUDA_VERSION >= 4000` block, lines 200-204. -/

/-- stubs.h line 200. -/
def cuCtxDestroyDecl : FunDecl :=
  { name := "cuCtxDestroy", conv := CallConv.CUDAAPI, ret := CType.CUresult,
    params := [(CType.CUcontext, "ctx")] }

/-- stubs.h line 201. -/
def cuCtxPopCurrentDecl : FunDecl :=
  { name := "cuCtxPopCurrent", conv := CallConv.CUDAAPI, ret := CType.CUresult,
    params := [(CType.ptr CType.CUcontext, "pctx")] }

/-- stubs.h line 202. -/
def cuCtxPushCurrentDecl : FunDecl :=
  { name := "cuCtxPushCurrent", conv := CallConv.CUDAAPI, ret := CType.CUresult,
    params := [(CType.CUcontext, "ctx")] }

/-- stubs.h line 203. -/
def cuStreamDestroyDecl : FunDecl :=
  { name := "cuStreamDestroy", conv := CallConv.CUDAAPI, ret := CType.CUresult,
    params := [(CType.CUstream, "hStream")] }

/-- stubs.h line 204. -/
def cuEventDestroyDecl : FunDecl :=
  { name := "cuEventDestroy", conv := CallConv.CUDAAPI, ret := CType.CUresult,
    params := [(CType.CUevent, "hEvent")] }

/- Re-exported prototypes of the `CUDA_VERSION >= 6050` block, lines 213-216. -/

/-- stubs.h line 213. -/
def cuMemHostRegisterDecl : FunDecl :=
  { name := "cuMemHostRegister", conv := CallConv.CUDAAPI, ret := CType.CUresult,
    params := [(CType.ptr CType.void, "p"), (CType.size_t, "bytesize"),
               (CType.uint, "Flags")] }

/-- stubs.h line 214. -/
def cuLinkCreateDecl : FunDecl :=
  { name := "cuLinkCreate", conv := CallConv.CUDAAPI, ret := CType.CUresult,
    params := [(CType.uint, "numOptions"), (CType.ptr CType.CUjit_option, "options"),
               (CType.ptr (CType.ptr CType.void), "optionValues"),
               (CType.ptr CType.CUlinkState, "stateOut")] }

/-- stubs.h line 215. -/
def cuLinkAddDataDecl : FunDecl :=
  { name := "cuLinkAddData", conv := CallConv.CUDAAPI, ret := CType.CUresult,
    params := [(CType.CUlinkState, "state"), (CType.CUjitInputType, "type"),
               (CType.ptr CType.void, "data"), (CType.size_t, "size"),
               (CType.ptr (CType.const CType.char), "name"),
               (CType.uint, "numOptions"), (CType.ptr CType.CUjit_option, "options"),
               (CType.ptr (CType.ptr CType.void), "optionValues")] }

/-- stubs.h line 216. -/
def cuLinkAddFileDecl : FunDecl :=
  { name := "cuLinkAddFile", conv := CallConv.CUDAAPI, ret := CType.CUresult,
    params := [(CType.CUlinkState, "state"), (CType.CUjitInputType, "type"),
               (CType.ptr (CType.const CType.char), "path"),
               (CType.uint, "numOptions"), (CType.ptr CType.CUjit_option, "options"),
               (CType.ptr (CType.ptr CType.void), "optionValues")] }

/-- The unconditional region of the body, stubs.h lines 22-98: the eight
simplified wrapper prototypes, not version-gated. -/
def wrapperBlock : Block :=
  { minVersion := none,
    elems := [Element.decl cudaConfigureCallSimpleDecl,
              Element.decl cuTexRefSetAddress2DSimpleDecl,
              Element.decl cuMemcpy2DHtoDDecl,
              Element.decl cuMemcpy2DHtoDAsyncDecl,
              Element.decl cuMemcpy2DDtoHDecl,
              Element.decl cuMemcpy2DDtoHAsyncDecl,
              Element.decl cuMemcpy2DDtoDDecl,
              Element.decl cuMemcpy2DDtoDAsyncDecl] }

/-- The `#if CUDA_VERSION >= 3020` region, stubs.h lines 105-191: the
`#undef` directives of lines 106-147 (lines 126, 132 and 145 are commented
out and hence absent), then the prototypes of lines 149-190 (the commented
lines absent likewise), in source order. -/
def block3020 : Block :=
  { minVersion := some 3020,
    elems := [Element.undefine "cuDeviceTotalMem",
              Element.undefine "cuCtxCreate",
              Element.undefine "cuModuleGetGlobal",
              Element.undefine "cuMemGetInfo",
              Element.undefine "cuMemAlloc",
              Element.undefine "cuMemAllocPitch",
              Element.undefine "cuMemFree",
              Element.undefine "cuMemGetAddressRange",
              Element.undefine "cuMemAllocHost",
              Element.undefine "cuMemHostGetDevicePointer",
              Element.undefine "cuMemcpyHtoD",
              Element.undefine "cuMemcpyDtoH",
              Element.undefine "cuMemcpyDtoD",
              Element.undefine "cuMemcpyDtoA",
              Element.undefine "cuMemcpyAtoD",
              Element.undefine "cuMemcpyHtoA",
              Element.undefine "cuMemcpyAtoH",
              Element.undefine "cuMemcpyAtoA",
              Element.undefine "cuMemcpyHtoAAsync",
              Element.undefine "cuMemcpyAtoHAsync",
              Element.undefine "cuMemcpy2DUnaligned",
              Element.undefine "cuMemcpy3D",
              Element.undefine "cuMemcpyHtoDAsync",
              Element.undefine "cuMemcpyDtoHAsync",
              Element.undefine "cuMemcpyDtoDAsync",
              Element.undefine "cuMemcpy3DAsync",
              Element.undefine "cuMemsetD8",
              Element.undefine "cuMemsetD16",
              Element.undefine "cuMemsetD32",
              Element.undefine "cuMemsetD2D8",
              Element.undefine "cuMemsetD2D16",
              Element.undefine "cuMemsetD2D32",
              Element.undefine "cuArrayCreate",
              Element.undefine "cuArrayGetDescriptor",
              Element.undefine "cuArray3DCreate",
              Element.undefine "cuArray3DGetDescriptor",
              Element.undefine "cuTexRefSetAddress",
              Element.undefine "cuTexRefGetAddress",
              Element.undefine "cuGraphicsResourceGetMappedPointer",
              Element.decl cuDeviceTotalMemDecl,
              Element.decl cuCtxCreateDecl,
              Element.decl cuModuleGetGlobalDecl,
              Element.decl cuMemGetInfoDecl,
              Element.decl cuMemAllocDecl,
              Element.decl cuMemFreeDecl,
              Element.decl cuMemGetAddressRangeDecl,
              Element.decl cuMemHostGetDevicePointerDecl,
              Element.decl cuMemcpyHtoDDecl,
              Element.decl cuMemcpyDtoHDecl,
              Element.decl cuMemcpyDtoDDecl,
              Element.decl cuMemcpyHtoDAsyncDecl,
              Element.decl cuMemcpyDtoHAsyncDecl,
              Element.decl cuMemcpyDtoDAsyncDecl,
              Element.decl cuMemsetD8Decl,
              Element.decl cuMemsetD16Decl,
              Element.decl cuMemsetD32Decl,
              Element.decl cuTexRefSetAddressDecl] }

/-- The `#if CUDA_VERSION >= 4000` region, stubs.h lines 193-205. -/
def block4000 : Block :=
  { minVersion := some 4000,
    elems := [Element.undefine "cuCtxDestroy",
              Element.undefine "cuCtxPopCurrent",
              Element.undefine "cuCtxPushCurrent",
              Element.undefine "cuStreamDestroy",
              Element.undefine "cuEventDestroy",
              Element.decl cuCtxDestroyDecl,
              Element.decl cuCtxPopCurrentDecl,
              Element.decl cuCtxPushCurrentDecl,
              Element.decl cuStreamDestroyDecl,
              Element.decl cuEventDestroyDecl] }

/-- The `#if CUDA_VERSION >= 6050` region, stubs.h lines 207-217. -/
def block6050 : Block :=
  { minVersion := some 6050,
    elems := [Element.undefine "cuMemHostRegister",
              Element.undefine "cuLinkCreate",
              Element.undefine "cuLinkAddData",
              Element.undefine "cuLinkAddFile",
              Element.decl cuMemHostRegisterDecl,
              Element.decl cuLinkCreateDecl,
              Element.decl cuLinkAddDataDecl,
              Element.decl cuLinkAddFileDecl] }

/-- The whole of stubs.h: the `C_STUBS_H` include guard of lines 5-6/222
wraps the entire file; the `#include`s of lines 14-16; the `extern "C"`
wrapper of lines 18-20/219-221 encloses every block of the body. -/
def stubs : HeaderFile :=
  { includeGuard := some "C_STUBS_H",
    includes := ["cuda.h", "cudaProfiler.h", "cuda_runtime_api.h"],
    externC := true,
    body := [wrapperBlock, block3020, block4000, block6050] }

/- Derived views of the header used by the theorems. -/

/-- The function prototypes among a list of elements, in order. -/
def declsOfElems (es : List Element) : List FunDecl :=
  es.filterMap (fun e =>
    match e with
    | Element.decl d => some d
    | _ => none)

/-- The names `#undef`ed by a list of elements, in order. -/
def undefsOfElems (es : List Element) : List String :=
  es.filterMap (fun e =>
    match e with
    | Element.undefine n => some n
    | _ => none)

/-- Whether a block's guard is satisfied at CUDA_VERSION `v`: an ungated
block always is, a `#if CUDA_VERSION >= t` block exactly when `t ≤ v`. -/
def versionOK (v : Nat) : Option Nat → Prop
  | Option.none => True
  | Option.some t => t ≤ v

instance (v : Nat) : (o : Option Nat) → Decidable (versionOK v o)
  | Option.none => inferInstanceAs (Decidable True)
  | Option.some t => inferInstanceAs (Decidable (t ≤ v))

/-- The prototypes a block contributes at CUDA_VERSION `v`. -/
def blockDeclsAt (v : Nat) (b : Block) : List FunDecl :=
  if versionOK v b.minVersion then declsOfElems b.elems else []

/-- The prototypes a list of blocks contributes at CUDA_VERSION `v`. -/
def declsOfBlocks (v : Nat) : List Block → List FunDecl
  | [] => []
  | b :: bs => blockDeclsAt v b ++ declsOfBlocks v bs

/-- The set of prototypes the preprocessed header declares at
CUDA_VERSION `v`. -/
def declsAt (v : Nat) : List FunDecl :=
  declsOfBlocks v stubs.body

/-- The prototypes of a list of blocks with every guard ignored: a superset
of `declsAt v` for every `v`. -/
def declsOfBlocksAll : List Block → List FunDecl
  | [] => []
  | b :: bs => declsOfElems b.elems ++ declsOfBlocksAll bs

/-- Every prototype occurring anywhere in the header. -/
def allDecls : List FunDecl :=
  declsOfBlocksAll stubs.body

/-- The eight unconditionally declared simplified wrappers. -/
def wrapperDecls : List FunDecl :=
  declsOfElems wrapperBlock.elems

/-- Walks a block's elements in order, accumulating the names `#undef`ed so
far; `true` exactly when every prototype's name was `#undef`ed earlier in
the same block (so the name is no longer a macro at its declaration,
whatever macros the included SDK headers defined). -/
def undefBeforeDecl : List String → List Element → Bool
  | _, [] => true
  | seen, Element.undefine n :: rest => undefBeforeDecl (n :: seen) rest
  | seen, Element.decl d :: rest => seen.contains d.name && undefBeforeDecl seen rest
  | seen, _ :: rest => undefBeforeDecl seen rest

/-- `true` exactly when every name `#undef`ed in the element list is the
name of a prototype occurring later in the same list. -/
def everyUndefRedeclared : List Element → Bool
  | [] => true
  | Element.undefine n :: rest =>
      (declsOfElems rest).any (fun d => d.name == n) && everyUndefRedeclared rest
  | _ :: rest => everyUndefRedeclared rest

/-- Whether an element defines behaviour or state (a function body or an
object definition) rather than merely declaring a prototype. -/
def isDefinitionOrObject : Element → Bool
  | Element.defn _ => true
  | Element.objDef _ => true
  | _ => false

/-- Whether a C type is, or points to, one of the vendor aggregate (struct)
types that the simplified wrappers flatten away. -/
def mentionsAggregate : CType → Bool
  | CType.dim3 => true
  | CType.CUDA_MEMCPY2D => true
  | CType.CUDA_ARRAY_DESCRIPTOR => true
  | CType.ptr t => mentionsAggregate t
  | CType.const t => mentionsAggregate t
  | _ => false

/-- The prototypes contributed by one textual inclusion of stubs.h at
CUDA_VERSION `v`, given the set of macros already defined: the include
guard of lines 5-6 suppresses the whole body when its macro is defined. -/
def expandInclude (definedMacros : List String) (v : Nat) : List FunDecl :=
  match stubs.includeGuard with
  | some g => if definedMacros.contains g then [] else declsAt v
  | none => declsAt v

/-- The macro set after one inclusion of stubs.h: line 6 defines the guard
macro. -/
def macrosAfterInclude (definedMacros : List String) : List String :=
  match stubs.includeGuard with
  | some g => g :: definedMacros
  | none => definedMacros

/-- The prototypes contributed by including stubs.h twice in one
translation unit, starting from macro set `ms`. -/
def includeTwiceDecls (ms : List String) (v : Nat) : List FunDecl :=
  expandInclude ms v ++ expandInclude (macrosAfterInclude ms) v

/- Helper lemmas shared by the claim theorems. -/

/-- `stubs.h` preprocessed at CUDA_VERSION `v`: the wrappers, then each
gated block's prototypes exactly when its threshold is reached. -/
theorem declsAt_eq (v : Nat) :
    declsAt v = wrapperDecls
      ++ ((if 3020 ≤ v then declsOfElems block3020.elems else [])
      ++ ((if 4000 ≤ v then declsOfElems block4000.elems else [])
      ++ ((if 6050 ≤ v then declsOfElems block6050.elems else []) ++ []))) := rfl

theorem versionOK_mono {v w : Nat} (h : v ≤ w) {o : Option Nat} :
    versionOK v o → versionOK w o := by
  cases o with
  | none => intro _; trivial
  | some t => intro ht; exact le_trans ht h

theorem blockDeclsAt_mono {v w : Nat} (h : v ≤ w) (b : Block) :
    List.Sublist (blockDeclsAt v b) (blockDeclsAt w b) := by
  unfold blockDeclsAt
  by_cases hv : versionOK v b.minVersion
  · rw [if_pos hv, if_pos (versionOK_mono h hv)]
  · rw [if_neg hv]
    exact List.nil_sublist _

theorem declsOfBlocks_mono {v w : Nat} (h : v ≤ w) :
    ∀ bs : List Block, List.Sublist (declsOfBlocks v bs) (declsOfBlocks w bs)
  | [] => List.Sublist.refl []
  | b :: bs => List.Sublist.append (blockDeclsAt_mono h b) (declsOfBlocks_mono h bs)

theorem declsAt_mono {v w : Nat} (h : v ≤ w) : List.Sublist (declsAt v) (declsAt w) :=
  declsOfBlocks_mono h stubs.body

theorem blockDeclsAt_sublist (v : Nat) (b : Block) :
    List.Sublist (blockDeclsAt v b) (declsOfElems b.elems) := by
  unfold blockDeclsAt
  by_cases hv : versionOK v b.minVersion
  · rw [if_pos hv]
  · rw [if_neg hv]
    exact List.nil_sublist _

theorem declsOfBlocks_sublist_all (v : Nat) :
    ∀ bs : List Block, List.Sublist (declsOfBlocks v bs) (declsOfBlocksAll bs)
  | [] => List.Sublist.refl []
  | b :: bs =>
      List.Sublist.append (blockDeclsAt_sublist v b) (declsOfBlocks_sublist_all v bs)

theorem declsAt_sublist_all (v : Nat) : List.Sublist (declsAt v) allDecls :=
  declsOfBlocks_sublist_all v stubs.body

/-- The 35 symbol names of the header are pairwise distinct. -/
theorem allDecls_names_nodup : (allDecls.map FunDecl.name).Nodup := by decide

/-- At every CUDA_VERSION the declared symbol names are pairwise distinct. -/
theorem declsAt_names_nodup (v : Nat) : ((declsAt v).map FunDecl.name).Nodup :=
  List.Nodup.sublist (List.Sublist.map FunDecl.name (declsAt_sublist_all v))
    allDecls_names_nodup

/-- Membership in the preprocessed declaration set, block by block. -/
theorem mem_declsAt_iff (v : Nat) (d : FunDecl) :
    d ∈ declsAt v ↔
      d ∈ wrapperDecls ∨
      (3020 ≤ v ∧ d ∈ declsOfElems block3020.elems) ∨
      (4000 ≤ v ∧ d ∈ declsOfElems block4000.elems) ∨
      (6050 ≤ v ∧ d ∈ declsOfElems block6050.elems) := by
  rw [declsAt_eq v]
  by_cases h1 : 3020 ≤ v <;> by_cases h2 : 4000 ≤ v <;> by_cases h3 : 6050 ≤ v <;>
    simp [h1, h2, h3, List.mem_append, or_assoc]

theorem disj3020 : ∀ d ∈ declsOfElems block3020.elems, d ∉ wrapperDecls := by
  decide

theorem disj4000 :
    ∀ d ∈ declsOfElems block4000.elems,
      d ∉ wrapperDecls ∧ d ∉ declsOfElems block3020.elems := by
  decide

theorem disj6050 :
    ∀ d ∈ declsOfElems block6050.elems,
      d ∉ wrapperDecls ∧ d ∉ declsOfElems block3020.elems ∧
        d ∉ declsOfElems block4000.elems := by
  decide

/- Claim theorems. -/

/-- Claim C2: the header's conditional compilation is gated on CUDA_VERSION
at exactly the thresholds 3020, 4000 and 6050 — the body's blocks carry no
other guard — and a declaration of a gated block is in effect at
CUDA_VERSION `v` if and only if `v` is at least that block's threshold. -/
theorem cuda_version_gating_thresholds (v : Nat) (d : FunDecl) :
    stubs.body.map Block.minVersion = [none, some 3020, some 4000, some 6050] ∧
    (d ∈ declsOfElems block3020.elems → (d ∈ declsAt v ↔ 3020 ≤ v)) ∧
    (d ∈ declsOfElems block4000.elems → (d ∈ declsAt v ↔ 4000 ≤ v)) ∧
    (d ∈ declsOfElems block6050.elems → (d ∈ declsAt v ↔ 6050 ≤ v)) := by
  refine ⟨rfl, fun hd => ⟨fun hmem => ?_, fun hv => ?_⟩,
    fun hd => ⟨fun hmem => ?_, fun hv => ?_⟩,
    fun hd => ⟨fun hmem => ?_, fun hv => ?_⟩⟩
  · rcases (mem_declsAt_iff v d).mp hmem with hw | ⟨hv, _⟩ | ⟨hv, _⟩ | ⟨hv, _⟩
    · exact absurd hw (disj3020 d hd)
    · exact hv
    · omega
    · omega
  · exact (mem_declsAt_iff v d).mpr (Or.inr (Or.inl ⟨hv, hd⟩))
  · rcases (mem_declsAt_iff v d).mp hmem with hw | ⟨_, h3⟩ | ⟨hv, _⟩ | ⟨hv, _⟩
    · exact absurd hw (disj4000 d hd).1
    · exact absurd h3 (disj4000 d hd).2
    · exact hv
    · omega
  · exact (mem_declsAt_iff v d).mpr (Or.inr (Or.inr (Or.inl ⟨hv, hd⟩)))
  · rcases (mem_declsAt_iff v d).mp hmem with hw | ⟨_, h3⟩ | ⟨_, h4⟩ | ⟨hv, _⟩
    · exact absurd hw (disj6050 d hd).1
    · exact absurd h3 (disj6050 d hd).2.1
    · exact absurd h4 (disj6050 d hd).2.2
    · exact hv
  · exact (mem_declsAt_iff v d).mpr (Or.inr (Or.inr (Or.inr ⟨hv, hd⟩)))

/-- Witness for C2: `cuMemAlloc` is declared in the 3020 block and is in
effect at CUDA_VERSION 3020. -/
theorem cuda_version_gating_thresholds_witness :
    cuMemAllocDecl ∈ declsOfElems block3020.elems ∧
    (cuMemAllocDecl ∈ declsAt 3020 ↔ 3020 ≤ 3020) :=
  ⟨by decide, (cuda_version_gating_thresholds 3020 cuMemAllocDecl).2.1 (by decide)⟩

/-- Counterexample to C3 as stated: `cuMemAllocPitch` is `#undef`ed in the
3020 block (stubs.h line 111) but no uncommented declaration of it follows —
its re-declaration, line 154, is commented out — so not every `#undef`ed
symbol is re-declared in its block. -/
theorem undef_cuMemAllocPitch_not_redeclared :
    everyUndefRedeclared block3020.elems = false ∧
    "cuMemAllocPitch" ∈ undefsOfElems block3020.elems ∧
    "cuMemAllocPitch" ∉ (declsOfElems block3020.elems).map FunDecl.name := by
  decide

/-- Claim C3 amended: every re-declared vendor symbol in a version-gated
block is preceded by a `#undef` of that symbol in the same block, and in
the 4000 and 6050 blocks every `#undef`ed symbol is indeed re-declared;
only in the 3020 block do some `#undef`ed symbols (e.g. `cuMemAllocPitch`)
lack an uncommented re-declaration. -/
theorem redeclared_symbols_undeffed :
    (undefBeforeDecl [] block3020.elems = true ∧
     undefBeforeDecl [] block4000.elems = true ∧
     undefBeforeDecl [] block6050.elems = true) ∧
    (everyUndefRedeclared block4000.elems = true ∧
     everyUndefRedeclared block6050.elems = true) := by
  decide

/-- Claim C4: the simplified wrappers have fully flattened parameter lists —
`cudaConfigureCallSimple` takes scalar int grid/block dimensions, a size_t
shared-memory size and a stream; `cuTexRefSetAddress2DSimple` and the six
2D-copy wrappers take scalar arguments; no wrapper parameter is, or points
to, a vendor aggregate (struct) type. -/
theorem simplified_wrappers_flattened :
    cudaConfigureCallSimpleDecl.params.map Prod.fst =
      [CType.int, CType.int, CType.int, CType.int, CType.int,
       CType.size_t, CType.cudaStream_t] ∧
    cuTexRefSetAddress2DSimpleDecl.params.map Prod.fst =
      [CType.CUtexref, CType.CUarray_format, CType.uint, CType.CUdeviceptr,
       CType.size_t, CType.size_t, CType.size_t] ∧
    cuMemcpy2DHtoDDecl.params.map Prod.fst =
      [CType.CUdeviceptr, CType.uint, CType.uint, CType.uint,
       CType.ptr CType.void, CType.uint, CType.uint, CType.uint,
       CType.uint, CType.uint] ∧
    cuMemcpy2DHtoDAsyncDecl.params.map Prod.fst =
      [CType.CUdeviceptr, CType.uint, CType.uint, CType.uint,
       CType.ptr CType.void, CType.uint, CType.uint, CType.uint,
       CType.uint, CType.uint, CType.CUstream] ∧
    cuMemcpy2DDtoHDecl.params.map Prod.fst =
      [CType.ptr CType.void, CType.uint, CType.uint, CType.uint,
       CType.CUdeviceptr, CType.uint, CType.uint, CType.uint,
       CType.uint, CType.uint] ∧
    cuMemcpy2DDtoHAsyncDecl.params.map Prod.fst =
      [CType.ptr CType.void, CType.uint, CType.uint, CType.uint,
       CType.CUdeviceptr, CType.uint, CType.uint, CType.uint,
       CType.uint, CType.uint, CType.CUstream] ∧
    cuMemcpy2DDtoDDecl.params.map Prod.fst =
      [CType.CUdeviceptr, CType.uint, CType.uint, CType.uint,
       CType.CUdeviceptr, CType.uint, CType.uint, CType.uint,
       CType.uint, CType.uint] ∧
    cuMemcpy2DDtoDAsyncDecl.params.map Prod.fst =
      [CType.CUdeviceptr, CType.uint, CType.uint, CType.uint,
       CType.CUdeviceptr, CType.uint, CType.uint, CType.uint,
       CType.uint, CType.uint, CType.CUstream] ∧
    wrapperDecls.all
      (fun d => d.params.all (fun p => !(mentionsAggregate p.fst))) = true := by
  decide

/-- Claim C5: every function declared anywhere in the header returns a
vendor status code — `cudaError_t` or `CUresult` — and none returns void
or any other type. -/
theorem declared_functions_return_status :
    allDecls.all
      (fun d => d.ret == CType.cudaError_t || d.ret == CType.CUresult) = true ∧
    allDecls.all (fun d => !(d.ret == CType.void)) = true := by
  decide

/-- Claim C6: at every CUDA_VERSION the header declares no symbol twice,
and in each version-gated block every re-declared symbol was `#undef`ed
earlier in the same block, so it is no longer a preprocessor macro at its
point of declaration: the header compiles without redefinition conflicts
at every supported version. -/
theorem no_symbol_redefinition :
    (∀ v : Nat, ((declsAt v).map FunDecl.name).Nodup) ∧
    undefBeforeDecl [] block3020.elems = true ∧
    undefBeforeDecl [] block4000.elems = true ∧
    undefBeforeDecl [] block6050.elems = true :=
  ⟨declsAt_names_nodup, by decide, by decide, by decide⟩

/-- Claim C7: the header contributes only prototypes with C linkage — its
body lies inside the `extern "C"` wrapper and no block element is a
function definition with a body or an object/state definition. -/
theorem prototypes_only_and_extern_c :
    stubs.externC = true ∧
    stubs.body.all
      (fun b => b.elems.all (fun e => !(isDefinitionOrObject e))) = true := by
  decide

/-- Claim C8: the `C_STUBS_H` include guard makes the header idempotent —
a second inclusion in the same translation unit contributes no declarations,
so two inclusions declare exactly what one does. -/
theorem include_guard_idempotent (ms : List String) (v : Nat) :
    includeTwiceDecls ms v = expandInclude ms v ∧
    expandInclude (macrosAfterInclude ms) v = [] := by
  have h2 : expandInclude (macrosAfterInclude ms) v = [] := by
    show (if ("C_STUBS_H" :: ms).contains "C_STUBS_H" then [] else declsAt v) = []
    simp
  refine ⟨?_, h2⟩
  show expandInclude ms v ++ expandInclude (macrosAfterInclude ms) v = expandInclude ms v
  rw [h2, List.append_nil]

/-- Claim C9: the declared-symbol set is monotone non-decreasing in
CUDA_VERSION — everything declared at `v` is declared at every `w ≥ v` —
and the eight simplified wrappers are declared at every version. -/
theorem decl_set_monotone (v w : Nat) (h : v ≤ w) :
    List.Sublist (declsAt v) (declsAt w) ∧
    (∀ d ∈ declsAt v, d ∈ declsAt w) ∧
    ∀ d ∈ wrapperDecls, d ∈ declsAt v :=
  ⟨declsAt_mono h, fun _ hd => (declsAt_mono h).subset hd,
    fun _ hd => (mem_declsAt_iff v _).mpr (Or.inl hd)⟩

/-- Witness for C9: the declarations at CUDA_VERSION 0 are a sublist of
those at 6050, and the wrappers are declared already at version 0. -/
theorem decl_set_monotone_witness :
    0 ≤ 6050 ∧
    (List.Sublist (declsAt 0) (declsAt 6050) ∧
     (∀ d ∈ declsAt 0, d ∈ declsAt 6050) ∧
     ∀ d ∈ wrapperDecls, d ∈ declsAt 0) :=
  ⟨Nat.zero_le 6050, decl_set_monotone 0 6050 (Nat.zero_le 6050)⟩

/-- Claim C10: each Async variant among the memory-copy declarations has
the same return type as its synchronous counterpart and the identical
parameter list with a single trailing `CUstream hStream` appended. -/
theorem async_sync_pairing :
    (cuMemcpy2DHtoDAsyncDecl.ret = cuMemcpy2DHtoDDecl.ret ∧
     cuMemcpy2DHtoDAsyncDecl.params =
       cuMemcpy2DHtoDDecl.params ++ [(CType.CUstream, "hStream")]) ∧
    (cuMemcpy2DDtoHAsyncDecl.ret = cuMemcpy2DDtoHDecl.ret ∧
     cuMemcpy2DDtoHAsyncDecl.params =
       cuMemcpy2DDtoHDecl.params ++ [(CType.CUstream, "hStream")]) ∧
    (cuMemcpy2DDtoDAsyncDecl.ret = cuMemcpy2DDtoDDecl.ret ∧
     cuMemcpy2DDtoDAsyncDecl.params =
       cuMemcpy2DDtoDDecl.params ++ [(CType.CUstream, "hStream")]) ∧
    (cuMemcpyHtoDAsyncDecl.ret = cuMemcpyHtoDDecl.ret ∧
     cuMemcpyHtoDAsyncDecl.params =
       cuMemcpyHtoDDecl.params ++ [(CType.CUstream, "hStream")]) ∧
    (cuMemcpyDtoHAsyncDecl.ret = cuMemcpyDtoHDecl.ret ∧
     cuMemcpyDtoHAsyncDecl.params =
       cuMemcpyDtoHDecl.params ++ [(CType.CUstream, "hStream")]) ∧
    (cuMemcpyDtoDAsyncDecl.ret = cuMemcpyDtoDDecl.ret ∧
     cuMemcpyDtoDAsyncDecl.params =
       cuMemcpyDtoDDecl.params ++ [(CType.CUstream, "hStream")]) := by
  decide

end CudaStubs
